import Mathlib

/-!
# Verification of the hair-saloon booking system's scheduling core

Shallow embedding of the appointment scheduling, pricing, cache
invalidation and report/lifecycle logic of the booking system
(`app/bp_appointment/routes.py`, `app/bp_admin/appointments.py`,
`app/bp_report/routes.py`, `models/database.py`), with theorems settling
the specification's claims about it.

Conventions:
* dates are modelled as ordinal day numbers (`Nat`);
* SQL/Python `NULL`/`None` becomes `Option`;
* money and pay rates are exact rationals (`ℚ`); the default pay rate
  15.75 is `63/4`;
* Python truthiness of `x or d` on nullable numbers/strings is modelled
  by explicit `pyOr*` helpers;
* each Flask route is a pure state transformer on a database state and a
  cache state, returning additionally an outcome value mirroring the
  route's flash/redirect behaviour.
-/

namespace Saloon

/-- The user types appearing in the source (`salon_user.user_type`). -/
inductive UserType where
  | client
  | professional
  | adminUser
  | adminAppoint
  | adminSuper
deriving DecidableEq, Repr

/-- Appointment status values stored in `salon_appointment.status`. -/
inductive Status where
  | requested
  | accepted
  | cancelled
deriving DecidableEq, Repr

/-- A row of `salon_user`, restricted to the fields the appointment core
reads: id, type, first/last name and the nullable `pay_rate` column
(index 14 of the raw tuple returned by `get_user_by_id`). -/
structure User where
  user_id : Nat
  user_type : UserType
  fname : String
  lname : String
  pay_rate : Option ℚ
deriving DecidableEq, Repr

/-- A row of `salon_appointment` (fields used by the core). Name columns
are nullable because `modify_appointment` stores the raw result of
`get_user_name_by_id`, which can be `None`. -/
structure Appointment where
  appointment_id : Nat
  consumer_id : Nat
  provider_id : Nat
  consumer_name : Option String
  provider_name : Option String
  status : Status
  date_appoint : Nat
  slot : String
  venue : String
  nber_services : Int
deriving DecidableEq, Repr

/-- A row of `salon_service` (1:1 with an appointment). -/
structure Service where
  appointment_id : Nat
  service_name : String
  service_duration : Int
  service_price : ℚ
  service_materials : Option String
deriving DecidableEq, Repr

/-- A row of `salon_report` (fields used by the core). -/
structure ReportRec where
  report_id : Nat
  appointment_id : Nat
  status : String
  feedback_client : Option String
  feedback_professional : Option String
deriving DecidableEq, Repr

/-- The database state: the tables the appointment/report core touches,
plus a counter supplying the ids generated by `RETURNING ... _id`. -/
structure DBState where
  users : List User
  appointments : List Appointment
  services : List Service
  reports : List ReportRec
  next_id : Nat
deriving DecidableEq, Repr

/-! ## Python value helpers -/

/-- Python `x or d` for a nullable numeric DB field: `None` and `0` are
falsy, any other number is returned unchanged. -/
def pyOrRat (x : Option ℚ) (d : ℚ) : ℚ :=
  match x with
  | none => d
  | some v => if v = 0 then d else v

/-- Python `x or d` for a nullable string field: `None` and `""` are
falsy. -/
def pyOrStr (x : Option String) (d : String) : String :=
  match x with
  | none => d
  | some v => if v = "" then d else v

/-- Python `n or d` for an integer: `0` is falsy. -/
def pyOrInt (n : Int) (d : Int) : Int :=
  if n = 0 then d else n

/-- Is `c` an ASCII decimal digit? -/
def isDigitChar (c : Char) : Bool := '0' ≤ c ∧ c ≤ '9'

/-- Value of a digit string, most significant first. -/
def digitsVal (cs : List Char) : Nat :=
  cs.foldl (fun acc c => 10 * acc + (c.toNat - '0'.toNat)) 0

/-- Model of Python `int(s)` on a decimal literal: optional surrounding
whitespace, an optional single sign, then a nonempty run of ASCII
digits; anything else raises `ValueError`, modelled as `none`. (Python
also tolerates `_` digit separators and unicode digits; those forms do
not occur in this system's slot strings and are not modelled.) -/
def pyInt (s : String) : Option Int :=
  let cs := s.data.dropWhile (· = ' ')
  let cs := (cs.reverse.dropWhile (· = ' ')).reverse
  match cs with
  | [] => none
  | c :: rest =>
    if c = '-' then
      if rest ≠ [] ∧ rest.all isDigitChar then some (-(digitsVal rest : Int)) else none
    else if c = '+' then
      if rest ≠ [] ∧ rest.all isDigitChar then some (digitsVal rest : Int) else none
    else
      if (c :: rest).all isDigitChar then some (digitsVal (c :: rest) : Int) else none

/-- Python `str.split("-")` on the character list: split at every `-`,
keeping empty pieces (`"".split("-") == [""]`, `"-".split("-") == ["",""]`). -/
def splitOnDash : List Char → List Char → List (List Char)
  | [], acc => [acc.reverse]
  | ch :: rest, acc =>
    if ch = '-' then acc.reverse :: splitOnDash rest []
    else splitOnDash rest (ch :: acc)

/-- `slot.split("-")[0]`: the text before the first `-` (the whole
string when there is no `-`). -/
def firstComponent (s : String) : String :=
  String.mk ((splitOnDash s.data []).headD [])

/-! ## Scheduling validation (inlined in `modify_appointment`,
`edit_appointment` and the admin `create_appointment`) -/

/-- The validation errors the routes report via flash messages. -/
inductive ValidationError where
  | invalidSlotFormat
  | durationOutOfRange
  | serviceCountExceedsDuration
deriving DecidableEq, Repr

/-- `max_duration`: `(12 if start_hour < 12 else 22) - start_hour`. -/
def maxDuration (startHour : Int) : Int :=
  (if startHour < 12 then 12 else 22) - startHour

/-- The inline scheduling validation of `modify_appointment`
(routes.py:474-489) and `edit_appointment` (appointments.py:165-180):
parse `int(slot.split("-")[0])`, then check
`1 <= duration <= max_duration`, then `nber_services <= duration`.
Returns the first failing check, `none` when all pass. -/
def validate_schedule (slot : String) (duration : Int) (nberServices : Int) :
    Option ValidationError :=
  match pyInt (firstComponent slot) with
  | none => some .invalidSlotFormat
  | some startHour =>
    if ¬(1 ≤ duration ∧ duration ≤ maxDuration startHour) then
      some .durationOutOfRange
    else if nberServices > duration then
      some .serviceCountExceedsDuration
    else
      none

/-- Written from the spec's words, for comparison with the code: a slot
is well formed when it is literally `"<int>-<int+1>"`, i.e. it splits at
a single `-` into two integers, the second one more than the first. -/
def specSlotWellFormed (s : String) : Bool :=
  match splitOnDash s.data [] with
  | [a, b] =>
    match pyInt (String.mk a), pyInt (String.mk b) with
    | some h, some h2 => h2 = h + 1
    | _, _ => false
  | _ => false

/-! ## Pay rates and pricing -/

/-- The default pay rate `15.75` used when a provider has none set. -/
def defaultPayRate : ℚ := 63 / 4

/-- `db.get_user_by_id` restricted to the modelled fields. -/
def get_user_by_id (s : DBState) (uid : Nat) : Option User :=
  s.users.find? (fun u => u.user_id = uid)

/-- `db.get_user_name_by_id`: `"fname lname"`, or `None` when the user
does not exist. -/
def get_user_name_by_id (s : DBState) (uid : Nat) : Option String :=
  (get_user_by_id s uid).map (fun u => u.fname ++ " " ++ u.lname)

/-- The `pay_rates` dictionaries built by `get_pay_rates`
(routes.py:44-47, appointments.py:17-21) and inline in
`create_appointment`/`modify_appointment`: one entry per professional,
`db.get_user_by_id(pid)[14] or 15.75`. `none` when `pid` is not a
professional (not among the dropdown choices). -/
def pay_rates (s : DBState) (pid : Nat) : Option ℚ :=
  match get_user_by_id s pid with
  | some u => if u.user_type = .professional then some (pyOrRat u.pay_rate defaultPayRate) else none
  | none => none

/-- `pay_rates.get(provider_id, 15.75)`. -/
def pay_rates_get (s : DBState) (pid : Nat) : ℚ :=
  (pay_rates s pid).getD defaultPayRate

/-! ## Store operations (`models/database.py`)

The connection is created with `autocommit=True` (`Database.__init__`),
so each successfully executed statement is durable immediately;
`Database.execute` additionally calls `commit()` after every single
statement. Failure of a statement is modelled by a boolean oracle at
the call site: a failing statement leaves the durable state unchanged
and the surrounding Python code sees an exception. -/

/-- The joined record returned by `db.get_appointment_by_id`
(database.py:868-914): appointment columns plus the LEFT-JOINed service
columns with their Python `or` defaults. -/
structure ApptDict where
  appointment_id : Nat
  status : Status
  date_appoint : Nat
  slot : String
  venue : String
  consumer_id : Nat
  consumer_name : Option String
  provider_id : Nat
  provider_name : Option String
  nber_services : Int
  service_name : String
  service_duration : Int
  service_price : ℚ
deriving DecidableEq, Repr

/-- The appointment row with the given id, if any. -/
def appt_row (s : DBState) (apptId : Nat) : Option Appointment :=
  s.appointments.find? (fun a => a.appointment_id = apptId)

/-- The service row linked to the given appointment, if any. -/
def service_row (s : DBState) (apptId : Nat) : Option Service :=
  s.services.find? (fun sv => sv.appointment_id = apptId)

/-- `db.get_appointment_by_id`: the joined dictionary, `None` when the
appointment does not exist. A missing service row yields the defaults
`"N/A"`, `0`, `0.0` (the `or` defaults of database.py:911-913); the
same defaults replace a falsy stored value. -/
def get_appointment_by_id (s : DBState) (apptId : Nat) : Option ApptDict :=
  (appt_row s apptId).map (fun a =>
    { appointment_id := a.appointment_id
      status := a.status
      date_appoint := a.date_appoint
      slot := a.slot
      venue := a.venue
      consumer_id := a.consumer_id
      consumer_name := a.consumer_name
      provider_id := a.provider_id
      provider_name := a.provider_name
      nber_services := a.nber_services
      service_name :=
        match service_row s apptId with
        | some sv => pyOrStr (some sv.service_name) "N/A"
        | none => "N/A"
      service_duration :=
        match service_row s apptId with
        | some sv => pyOrInt sv.service_duration 0
        | none => 0
      service_price :=
        match service_row s apptId with
        | some sv => pyOrRat (some sv.service_price) 0
        | none => 0 })

/-- Replace the appointment row with the given id (SQL
`UPDATE ... WHERE appointment_id = %s`). -/
def set_appt_row (s : DBState) (apptId : Nat) (f : Appointment → Appointment) : DBState :=
  { s with appointments :=
      s.appointments.map (fun a => if a.appointment_id = apptId then f a else a) }

/-- Replace the service row linked to the given appointment. -/
def set_service_row (s : DBState) (apptId : Nat) (f : Service → Service) : DBState :=
  { s with services :=
      s.services.map (fun sv => if sv.appointment_id = apptId then f sv else sv) }

/-- `db.update_appointment_status` (database.py:1047-1062): a single
UPDATE of the status column. -/
def update_appointment_status (s : DBState) (apptId : Nat) (st : Status) : DBState :=
  set_appt_row s apptId (fun a => { a with status := st })

/-- `db.update_appointment` (database.py:1066-1132): rewrite the
appointment row and the service row from the dict's fields (two UPDATE
statements under one `cursor()` block). -/
def update_appointment (s : DBState) (apptId : Nat) (d : ApptDict) : DBState :=
  let s1 := set_appt_row s apptId (fun a =>
    { a with
      provider_id := d.provider_id
      provider_name := d.provider_name
      consumer_id := d.consumer_id
      consumer_name := d.consumer_name
      status := d.status
      venue := d.venue
      date_appoint := d.date_appoint
      slot := d.slot })
  set_service_row s1 apptId (fun sv =>
    { sv with
      service_name := d.service_name
      service_duration := d.service_duration
      service_price := d.service_price })

/-- `db.add_appointment` (database.py:734-783): insert the row and
return the generated id. -/
def add_appointment (s : DBState) (a : Nat → Appointment) : DBState × Nat :=
  let newId := s.next_id
  ({ s with
      appointments := s.appointments ++ [a newId]
      next_id := newId + 1 }, newId)

/-- `db.add_service` (database.py:787-820). -/
def add_service (s : DBState) (sv : Service) : DBState :=
  { s with services := s.services ++ [sv] }

/-- `db.get_report_by_appointment_id` (database.py:1604-1621):
`SELECT * FROM salon_report WHERE appointment_id = %s`, first row. -/
def get_report_by_appointment_id (s : DBState) (apptId : Nat) : Option ReportRec :=
  s.reports.find? (fun r => r.appointment_id = apptId)

/-- `db.has_report_for_appointment` (database.py:1344-1363). -/
def has_report_for_appointment (s : DBState) (apptId : Nat) : Bool :=
  (get_report_by_appointment_id s apptId).isSome

/-- `db.add_report` (database.py:1160-1191): insert a report row. -/
def add_report (s : DBState) (apptId : Nat) (status : String)
    (feedbackClient : Option String) (feedbackProfessional : Option String) :
    DBState :=
  { s with
      reports := s.reports ++
        [{ report_id := s.next_id
           appointment_id := apptId
           status := status
           feedback_client := feedbackClient
           feedback_professional := feedbackProfessional }]
      next_id := s.next_id + 1 }

/-- `db.delete_appointment` (database.py:1136-1156): DELETE the service
row, then the appointment row, inside one `cursor()` block. Because the
connection autocommits, each DELETE is durable as soon as it executes;
`failSecond` injects a failure of the second DELETE, after which the
service row is already gone while the appointment row remains. Returns
the durable state and whether the whole call succeeded. -/
def delete_appointment_db (s : DBState) (apptId : Nat) (failSecond : Bool) :
    DBState × Bool :=
  let s1 := { s with services := s.services.filter (fun sv => sv.appointment_id ≠ apptId) }
  if failSecond then (s1, false)
  else ({ s1 with appointments := s1.appointments.filter (fun a => a.appointment_id ≠ apptId) }, true)

/-- `db.get_appointments_by_user` (database.py:920-958): the user's
appointments as consumer, INNER JOINed with their service row. -/
def get_appointments_by_user (s : DBState) (uid : Nat) : List Appointment :=
  s.appointments.filter (fun a =>
    a.consumer_id = uid ∧ (service_row s a.appointment_id).isSome)

/-! ## The cache keys of the appointment views

Each memoized view function together with its argument tuple is one
cache key. For the invalidation claims only the presence of a key
matters, so the cache is modelled as the list of keys currently
present; `cache.delete_memoized(f, args...)` removes one key. -/

/-- Cache keys of the appointment-related views:
* `myAppointments` — `_get_my_appointments_cached(user_id, user_type, page)`
  (routes.py:97);
* `listAllAppointments` — the `@cache.cached` entry of
  `list_all_appointments` (routes.py:236);
* `manageAppointments` — `_get_manage_appointments_cached(user_type,
  filter_status)` (appointments.py:38);
* `viewAdminAppointment` — `_get_view_appointment_cached(appt_id,
  return_status)` (appointments.py:93), the single-appointment view;
* `userAppointments` — `_get_user_appointments_cached(user_id)`
  (appointments.py:284). -/
inductive CacheKey where
  | myAppointments (userId : Nat) (userType : UserType) (page : Nat)
  | listAllAppointments
  | manageAppointments (userType : UserType) (filterStatus : String)
  | viewAdminAppointment (apptId : Nat) (returnStatus : String)
  | userAppointments (userId : Nat)
deriving DecidableEq, Repr

/-- The cache: the set (as a list) of keys currently holding an entry. -/
abbrev Cache : Type := List CacheKey

/-- `cache.delete_memoized(f, args...)`: drop the one matching key. -/
def delete_memoized (k : CacheKey) (c : Cache) : Cache :=
  List.filter (fun k2 => k2 ≠ k) c

/-- `invalidate_my_appt_cache` (routes.py:52-59): purge the current
user's `_get_my_appointments_cached(id, user_type, 1)` entry and the
`list_all_appointments` entry — nothing else. -/
def invalidate_my_appt_cache (actorId : Nat) (actorType : UserType) (c : Cache) : Cache :=
  delete_memoized .listAllAppointments
    (delete_memoized (.myAppointments actorId actorType 1) c)

/-- `invalidate_appointment_cache` (utils_admin.py:49-59): purge
`_get_manage_appointments_cached(user_type, status)` for the four
statuses, in loop order. -/
def invalidate_appointment_cache (adminType : UserType) (c : Cache) : Cache :=
  delete_memoized (.manageAppointments adminType "cancelled")
    (delete_memoized (.manageAppointments adminType "accepted")
      (delete_memoized (.manageAppointments adminType "requested")
        (delete_memoized (.manageAppointments adminType "all") c)))

/-- Purge a whole list of keys at once (used to state which keys a
mutation actually removes). -/
def purgeKeys (ks : List CacheKey) (c : Cache) : Cache :=
  List.filter (fun k => k ∉ ks) c

/-! ## Client-facing appointment routes (`app/bp_appointment/routes.py`) -/

/-- Outcome of `create_appointment` (routes.py:137-207). -/
inductive CreateOutcome where
  | providerMissing
  | created
deriving DecidableEq, Repr

/-- `create_appointment` (routes.py:137-207), after the WTForms
validation succeeded: look up the provider (a missing provider makes
`provider[0]` raise, caught by the `except` — nothing stored), insert
the appointment with status `requested` and `nber_services = 1`, insert
the service with price
`float(duration) * float(pay_rates.get(provider_id, 15.75))`, then run
`invalidate_my_appt_cache()`. -/
def create_appointment_route (s : DBState) (c : Cache)
    (actorId : Nat) (actorType : UserType) (actorFname actorLname : String)
    (providerId : Nat) (dateAppoint : Nat) (slot venue serviceName : String)
    (serviceDuration : Int) : DBState × Cache × CreateOutcome :=
  match get_user_by_id s providerId with
  | none => (s, c, .providerMissing)
  | some p =>
    let (s1, apptId) := add_appointment s (fun newId =>
      { appointment_id := newId
        consumer_id := actorId
        provider_id := p.user_id
        consumer_name := some (actorFname ++ " " ++ actorLname)
        provider_name := some (p.fname ++ " " ++ p.lname)
        status := .requested
        date_appoint := dateAppoint
        slot := slot
        venue := venue
        nber_services := 1 })
    let s2 := add_service s1
      { appointment_id := apptId
        service_name := serviceName
        service_duration := serviceDuration
        service_price := (serviceDuration : ℚ) * pay_rates_get s providerId
        service_materials := none }
    (s2, invalidate_my_appt_cache actorId actorType c, .created)

/-- Outcome of `accept_appointment` (routes.py:292-324). A missing
appointment and a non-provider actor produce the same
"not authorized" flash. -/
inductive AcceptOutcome where
  | notAuthorized
  | accepted
deriving DecidableEq, Repr

/-- `accept_appointment` (routes.py:292-324): fetch the appointment;
unless the actor is its provider, fail; otherwise set the dict's status
to `accepted`, write it back with `db.update_appointment`, and run
`invalidate_my_appt_cache()`. (No check of the current status is
performed.) -/
def accept_appointment_route (s : DBState) (c : Cache)
    (actorId : Nat) (actorType : UserType) (apptId : Nat) :
    DBState × Cache × AcceptOutcome :=
  match get_appointment_by_id s apptId with
  | none => (s, c, .notAuthorized)
  | some d =>
    if actorId ≠ d.provider_id then (s, c, .notAuthorized)
    else
      let s1 := update_appointment s apptId { d with status := .accepted }
      (s1, invalidate_my_appt_cache actorId actorType c, .accepted)

/-- Outcome of `cancel_appointment` (routes.py:327-364). -/
inductive CancelOutcome where
  | notFound
  | notParticipant
  | notRequested
  | cancelled
deriving DecidableEq, Repr

/-- `cancel_appointment` (routes.py:327-364): only a participant may
cancel, and only from status `requested`. -/
def cancel_appointment_route (s : DBState) (c : Cache)
    (actorId : Nat) (actorType : UserType) (apptId : Nat) :
    DBState × Cache × CancelOutcome :=
  match get_appointment_by_id s apptId with
  | none => (s, c, .notFound)
  | some d =>
    if ¬(actorId = d.provider_id ∨ actorId = d.consumer_id) then (s, c, .notParticipant)
    else if d.status ≠ .requested then (s, c, .notRequested)
    else
      (update_appointment_status s apptId .cancelled,
       invalidate_my_appt_cache actorId actorType c, .cancelled)

/-- Outcome of `delete_appointment` (routes.py:368-419). -/
inductive DeleteOutcome where
  | notFound
  | unauthorized
  | reportLinked
  | storeError
  | deleted
deriving DecidableEq, Repr

/-- `delete_appointment` (routes.py:368-419): authorization (owner or
`admin_user`/`admin_super`), then the report check, then
`db.delete_appointment` followed — only on success — by
`invalidate_my_appt_cache()`; an exception from the deletion is caught
after the cache purge line is skipped. `failSecond` injects a failure
of the second DELETE statement. -/
def delete_appointment_route (s : DBState) (c : Cache)
    (actorId : Nat) (actorType : UserType) (apptId : Nat) (failSecond : Bool) :
    DBState × Cache × DeleteOutcome :=
  match get_appointment_by_id s apptId with
  | none => (s, c, .notFound)
  | some d =>
    let isOwner := actorId = d.consumer_id ∨ actorId = d.provider_id
    let isAdmin := actorType = .adminUser ∨ actorType = .adminSuper
    if ¬(isOwner ∨ isAdmin) then (s, c, .unauthorized)
    else if (get_report_by_appointment_id s apptId).isSome then (s, c, .reportLinked)
    else
      match delete_appointment_db s apptId failSecond with
      | (s1, true) => (s1, invalidate_my_appt_cache actorId actorType c, .deleted)
      | (s1, false) => (s1, c, .storeError)

/-- Outcome of `modify_appointment` (routes.py:424-544) and of the admin
`edit_appointment` (appointments.py:121-230). -/
inductive ModifyOutcome where
  | notFound
  | unauthorized
  | invalidSlot
  | invalidDuration
  | invalidServices
  | storeError
  | updated
deriving DecidableEq, Repr

/-- `modify_appointment` (routes.py:424-544), after WTForms validation:
authorization for clients/professionals, the inline scheduling
validation, then two separate `db.execute` UPDATE statements — each one
committed on its own by `Database.execute` (database.py:50-60). The
service price is `duration * pay_rates.get(provider_id, 15.75)`.
`failSecond` injects a failure of the second UPDATE; the first is then
already committed. No cache purge is performed on any path. -/
def modify_appointment_route (s : DBState) (c : Cache)
    (actorId : Nat) (actorType : UserType) (apptId : Nat)
    (consumerId providerId : Nat) (dateAppoint : Nat)
    (slot venue serviceName : String) (nberServices duration : Int)
    (failSecond : Bool) : DBState × Cache × ModifyOutcome :=
  match get_appointment_by_id s apptId with
  | none => (s, c, .notFound)
  | some d =>
    if actorType = .client ∧ actorId ≠ d.consumer_id then (s, c, .unauthorized)
    else if actorType = .professional ∧ actorId ≠ d.provider_id then (s, c, .unauthorized)
    else
      match pyInt (firstComponent slot) with
      | none => (s, c, .invalidSlot)
      | some startHour =>
        if ¬(1 ≤ duration ∧ duration ≤ maxDuration startHour) then (s, c, .invalidDuration)
        else if nberServices > duration then (s, c, .invalidServices)
        else
          let s1 := set_appt_row s apptId (fun a =>
            { a with
              date_appoint := dateAppoint
              slot := slot
              venue := venue
              provider_id := providerId
              provider_name := get_user_name_by_id s providerId
              consumer_id := consumerId
              consumer_name := get_user_name_by_id s consumerId
              nber_services := nberServices })
          if failSecond then (s1, c, .storeError)
          else
            let s2 := set_service_row s1 apptId (fun sv =>
              { sv with
                service_name := serviceName
                service_duration := duration
                service_price := (duration : ℚ) * pay_rates_get s providerId })
            (s2, c, .updated)

/-! ## Admin appointment routes (`app/bp_admin/appointments.py`) -/

/-- The admin `create_appointment` (appointments.py:316-417), after
WTForms validation: parse the slot (the SELECT field guarantees it, a
parse failure would propagate to the outer `except` with nothing
stored), validate duration and service count, insert appointment
(status `requested`, `nber_services = nb_services or 1`) and service
with price `duration * nb_services * pay_rates.get(provider_id, 15.75)`,
then `invalidate_appointment_cache(cache, current_user.user_type)` —
only the four manage-view entries. -/
def admin_create_appointment_route (s : DBState) (c : Cache)
    (adminType : UserType) (clientId providerId : Nat) (venue : String)
    (dateAppoint : Nat) (slot : String) (serviceId : Nat)
    (duration nbServices : Int) : DBState × Cache × ModifyOutcome :=
  match pyInt (firstComponent slot) with
  | none => (s, c, .invalidSlot)
  | some startHour =>
    if ¬(1 ≤ duration ∧ duration ≤ maxDuration startHour) then (s, c, .invalidDuration)
    else
      let nb := pyOrInt nbServices 1
      if nb > duration then (s, c, .invalidServices)
      else
        let consumerName := pyOrStr (get_user_name_by_id s clientId) "Client"
        let providerName := pyOrStr (get_user_name_by_id s providerId) "Professional"
        let (s1, apptId) := add_appointment s (fun newId =>
          { appointment_id := newId
            consumer_id := clientId
            provider_id := providerId
            consumer_name := some consumerName
            provider_name := some providerName
            status := .requested
            date_appoint := dateAppoint
            slot := slot
            venue := venue
            nber_services := nb })
        let s2 := add_service s1
          { appointment_id := apptId
            service_name := "Service from ID " ++ toString serviceId
            service_duration := duration
            service_price := (duration : ℚ) * (nb : ℚ) * pay_rates_get s providerId
            service_materials := none }
        (s2, invalidate_appointment_cache adminType c, .updated)

/-- The admin `edit_appointment` (appointments.py:121-230), after
WTForms validation: the same inline scheduling validation as
`modify_appointment`, then two separate `db.execute` UPDATEs — the
service UPDATE sets only `service_name` and `service_duration`, never
the price — then `invalidate_appointment_cache` plus
`delete_memoized(_get_user_appointments_cached, consumer_id)` and
`(..., provider_id)` for the new consumer and provider. `failSecond`
injects a failure of the second UPDATE (first already committed, no
purge: the exception is caught before the invalidation lines). -/
def admin_edit_appointment_route (s : DBState) (c : Cache)
    (adminType : UserType) (apptId : Nat) (consumerId providerId : Nat)
    (dateAppoint : Nat) (slot venue serviceName : String)
    (nberServices duration : Int) (failSecond : Bool) :
    DBState × Cache × ModifyOutcome :=
  match get_appointment_by_id s apptId with
  | none => (s, c, .notFound)
  | some _ =>
    match pyInt (firstComponent slot) with
    | none => (s, c, .invalidSlot)
    | some startHour =>
      if ¬(1 ≤ duration ∧ duration ≤ maxDuration startHour) then (s, c, .invalidDuration)
      else if nberServices > duration then (s, c, .invalidServices)
      else
        let s1 := set_appt_row s apptId (fun a =>
          { a with
            date_appoint := dateAppoint
            slot := slot
            venue := venue
            provider_id := providerId
            provider_name := get_user_name_by_id s providerId
            consumer_id := consumerId
            consumer_name := get_user_name_by_id s consumerId
            nber_services := nberServices })
        if failSecond then (s1, c, .storeError)
        else
          let s2 := set_service_row s1 apptId (fun sv =>
            { sv with
              service_name := serviceName
              service_duration := duration })
          (s2,
           delete_memoized (.userAppointments providerId)
             (delete_memoized (.userAppointments consumerId)
               (invalidate_appointment_cache adminType c)),
           .updated)

/-- The admin `delete_appointment` (appointments.py:237-265): fetch,
then `db.delete_appointment` (no report check, no try/except — a
failure propagates and skips the purges), then
`invalidate_appointment_cache` plus the `userAppointments` entries of
the appointment's consumer and provider. -/
def admin_delete_appointment_route (s : DBState) (c : Cache)
    (adminType : UserType) (apptId : Nat) (failSecond : Bool) :
    DBState × Cache × DeleteOutcome :=
  match get_appointment_by_id s apptId with
  | none => (s, c, .notFound)
  | some d =>
    match delete_appointment_db s apptId failSecond with
    | (s1, true) =>
      (s1,
       delete_memoized (.userAppointments d.provider_id)
         (delete_memoized (.userAppointments d.consumer_id)
           (invalidate_appointment_cache adminType c)),
       .deleted)
    | (s1, false) => (s1, c, .storeError)

/-! ## Report creation (`app/bp_report/routes.py`, `report.py`) -/

/-- The `can_write_report` flag computed per appointment in
`_get_my_appointments_cached` (routes.py:119-123): the actor is a
client, the appointment date has passed, and no report exists yet. It
only controls whether the UI offers the report button. -/
def can_write_report (s : DBState) (today : Nat) (userType : UserType)
    (a : Appointment) : Bool :=
  userType = .client ∧ a.date_appoint < today ∧
    ¬ has_report_for_appointment s a.appointment_id

/-- `create_reports` (bp_report/routes.py:111-162), POST path: the
`ClientReportForm` restricts `appointment_id` to the choices built from
`get_appointments_by_user(current_user)` (the actor's appointments as
consumer, joined with their service) and requires a feedback text of
3-150 characters; when the form validates, `Report.create` →
`db.add_report` inserts the row with status `open` unconditionally — no
check of the actor's type, of the appointment date, or for an existing
report. -/
def create_reports_route (s : DBState) (actorId : Nat) (apptId : Nat)
    (feedbackClient : String) : DBState × Bool :=
  if apptId ∈ (get_appointments_by_user s actorId).map (fun a => a.appointment_id)
      ∧ 3 ≤ feedbackClient.length ∧ feedbackClient.length ≤ 150 then
    (add_report s apptId "open" (some feedbackClient) none, true)
  else
    (s, false)

/-! ## DerivedViewCache (spec §4.3)

Modelled from the spec: the cache object is `flask_caching.Cache`
with the `SimpleCache` backend (`app/__init__.py:12`); the library
implementing `memoize`/`delete_memoized` is an external dependency, not
part of this repository, so `getOrCompute`/`purge` are modelled from
the spec's §4.3 description: key → (value, expiry) map, return the
stored value while unexpired, otherwise invoke the producer and store
`(value, now + ttl)`; `purge` removes an entry regardless of TTL. -/

/-- The memoization map: association list key → (value, expiry). -/
abbrev DVCache : Type := List (String × Nat × Nat)

/-- The entry stored under `k`, if any. -/
def dvLookup (c : DVCache) (k : String) : Option (Nat × Nat) :=
  (List.find? (fun e => e.1 = k) c).map (fun e => e.2)

/-- `getOrCompute(key, ttl, producer)`: returns the value, the new cache
and whether the producer was invoked. -/
def getOrCompute (c : DVCache) (now : Nat) (k : String) (ttl : Nat)
    (producer : Unit → Nat) : Nat × DVCache × Bool :=
  match dvLookup c k with
  | some (v, expiry) =>
    if now < expiry then (v, c, false)
    else
      let v2 := producer ()
      (v2, (k, v2, now + ttl) :: List.filter (fun e => e.1 ≠ k) c, true)
  | none =>
    let v2 := producer ()
    (v2, (k, v2, now + ttl) :: List.filter (fun e => e.1 ≠ k) c, true)

/-- `purge(key)`: remove the entry immediately, regardless of TTL. -/
def dvPurge (c : DVCache) (k : String) : DVCache :=
  List.filter (fun e => e.1 ≠ k) c

/-! ## Concrete sample data for counterexamples and witnesses -/

/-- A client, id 3. -/
def uClient : User :=
  { user_id := 3, user_type := .client, fname := "Cara", lname := "Cli", pay_rate := none }

/-- A professional, id 2, with no pay rate set. -/
def uPro : User :=
  { user_id := 2, user_type := .professional, fname := "Paul", lname := "Pro", pay_rate := none }

/-- Appointment #1 of consumer 3 with provider 2, status `cancelled`,
date day 10, slot 9-10. -/
def appt1 : Appointment :=
  { appointment_id := 1, consumer_id := 3, provider_id := 2
    consumer_name := some "Cara Cli", provider_name := some "Paul Pro"
    status := .cancelled, date_appoint := 10, slot := "9-10"
    venue := "room1", nber_services := 1 }

/-- The service of appointment #1. -/
def svc1 : Service :=
  { appointment_id := 1, service_name := "Cut", service_duration := 1
    service_price := 20, service_materials := none }

/-- A database with users 2 and 3, appointment #1 and its service, and
no report. -/
def stateA : DBState :=
  { users := [uClient, uPro], appointments := [appt1], services := [svc1]
    reports := [], next_id := 50 }

/-- The joined dict `get_appointment_by_id` returns for appointment #1
of `stateA`. -/
def dictA : ApptDict :=
  { appointment_id := 1, status := .cancelled, date_appoint := 10
    slot := "9-10", venue := "room1", consumer_id := 3
    consumer_name := some "Cara Cli", provider_id := 2
    provider_name := some "Paul Pro", nber_services := 1
    service_name := "Cut", service_duration := 1, service_price := 20 }

/-- Like `stateA`, but appointment #1 is `requested`, dated day 100, and
already has a report (#7). -/
def stateB : DBState :=
  { users := [uClient, uPro]
    appointments := [{ appt1 with status := .requested, date_appoint := 100 }]
    services := [svc1]
    reports := [{ report_id := 7, appointment_id := 1, status := "open"
                  feedback_client := some "meh", feedback_professional := none }]
    next_id := 50 }

/-! ## Helper lemmas -/

/-- Purging nothing is the identity. -/
theorem purgeKeys_nil (c : Cache) : purgeKeys [] c = c := by
  induction c with
  | nil => rfl
  | cons x xs ih => simp [purgeKeys]

/-- `delete_memoized` is the one-key purge. -/
theorem delete_memoized_eq_purgeKeys (k : CacheKey) (c : Cache) :
    delete_memoized k c = purgeKeys [k] c := by
  induction c with
  | nil => rfl
  | cons x xs ih =>
    by_cases h : x = k <;>
      simp only [delete_memoized, purgeKeys, List.filter] at ih ⊢ <;>
      simp [h, ih]

/-- Two successive purges purge the union. -/
theorem purgeKeys_purgeKeys (ks1 ks2 : List CacheKey) (c : Cache) :
    purgeKeys ks2 (purgeKeys ks1 c) = purgeKeys (ks1 ++ ks2) c := by
  induction c with
  | nil => rfl
  | cons x xs ih =>
    by_cases h1 : x ∈ ks1 <;> by_cases h2 : x ∈ ks2 <;>
      simp [purgeKeys, h1, h2, ih] at ih ⊢ <;> simp [ih]

/-- `invalidate_my_appt_cache` purges exactly the actor's page-1
`myAppointments` entry and the global list entry. -/
theorem invalidate_my_appt_cache_eq (actorId : Nat) (actorType : UserType) (c : Cache) :
    invalidate_my_appt_cache actorId actorType c =
      purgeKeys [.myAppointments actorId actorType 1, .listAllAppointments] c := by
  simp [invalidate_my_appt_cache, delete_memoized_eq_purgeKeys, purgeKeys_purgeKeys]

/-- `invalidate_appointment_cache` purges exactly the four manage-view
entries of the given admin type. -/
theorem invalidate_appointment_cache_eq (adminType : UserType) (c : Cache) :
    invalidate_appointment_cache adminType c =
      purgeKeys [.manageAppointments adminType "all",
                 .manageAppointments adminType "requested",
                 .manageAppointments adminType "accepted",
                 .manageAppointments adminType "cancelled"] c := by
  simp [invalidate_appointment_cache, delete_memoized_eq_purgeKeys, purgeKeys_purgeKeys]

/-- Row lookup after an id-preserving row update: the found row is the
updated one. -/
theorem find?_update_appt (l : List Appointment) (tgt : Nat)
    (f : Appointment → Appointment)
    (hf : ∀ a, (f a).appointment_id = a.appointment_id) :
    (l.map (fun a => if a.appointment_id = tgt then f a else a)).find?
        (fun a => a.appointment_id = tgt) =
      (l.find? (fun a => a.appointment_id = tgt)).map f := by
  induction l with
  | nil => rfl
  | cons x xs ih =>
    by_cases h : x.appointment_id = tgt
    · simp [List.find?, h, hf]
    · simp [List.find?, h, ih]

/-- Service-row analogue of `find?_update_appt`. -/
theorem find?_update_svc (l : List Service) (tgt : Nat)
    (f : Service → Service)
    (hf : ∀ sv, (f sv).appointment_id = sv.appointment_id) :
    (l.map (fun sv => if sv.appointment_id = tgt then f sv else sv)).find?
        (fun sv => sv.appointment_id = tgt) =
      (l.find? (fun sv => sv.appointment_id = tgt)).map f := by
  induction l with
  | nil => rfl
  | cons x xs ih =>
    by_cases h : x.appointment_id = tgt
    · simp [List.find?, h, hf]
    · simp [List.find?, h, ih]

/-- `appt_row` after `set_appt_row` on the same id. -/
theorem appt_row_set (s : DBState) (apptId : Nat) (f : Appointment → Appointment)
    (hf : ∀ a, (f a).appointment_id = a.appointment_id) :
    appt_row (set_appt_row s apptId f) apptId = (appt_row s apptId).map f :=
  find?_update_appt s.appointments apptId f hf

/-- `service_row` after `set_service_row` on the same id. -/
theorem service_row_set (s : DBState) (apptId : Nat) (f : Service → Service)
    (hf : ∀ sv, (f sv).appointment_id = sv.appointment_id) :
    service_row (set_service_row s apptId f) apptId = (service_row s apptId).map f :=
  find?_update_svc s.services apptId f hf

/-- `set_appt_row` leaves the service table alone. -/
theorem service_row_set_appt (s : DBState) (apptId tgt : Nat)
    (f : Appointment → Appointment) :
    service_row (set_appt_row s apptId f) tgt = service_row s tgt := rfl

/-- `set_service_row` leaves the appointment table alone. -/
theorem appt_row_set_service (s : DBState) (apptId tgt : Nat)
    (f : Service → Service) :
    appt_row (set_service_row s apptId f) tgt = appt_row s tgt := rfl

/-- Looking up a freshly appended appointment row. -/
theorem appt_row_append (s : DBState) (a : Appointment)
    (h : appt_row s a.appointment_id = none) :
    ({ s with appointments := s.appointments ++ [a] } : DBState).appointments.find?
        (fun x => x.appointment_id = a.appointment_id) = some a := by
  rw [List.find?_append]
  unfold appt_row at h
  simp [h, List.find?]

/-- Looking up a freshly appended service row. -/
theorem service_row_append (s : DBState) (sv : Service)
    (h : service_row s sv.appointment_id = none) :
    ({ s with services := s.services ++ [sv] } : DBState).services.find?
        (fun x => x.appointment_id = sv.appointment_id) = some sv := by
  rw [List.find?_append]
  unfold service_row at h
  simp [h, List.find?]

/-! ## Claim theorems -/

/-- C10: a provider whose stored `pay_rate` is NULL **or** `0` is priced
at the default 15.75 — the `or 15.75` idiom treats `0` as falsy — so the
pay-rate lookup of `get_pay_rates` never yields a zero rate. -/
theorem pay_rate_default_on_falsy (s : DBState) (pid : Nat) (u : User)
    (hu : get_user_by_id s pid = some u) (hprof : u.user_type = .professional) :
    defaultPayRate = 1575 / 100 ∧
    ((u.pay_rate = none ∨ u.pay_rate = some 0) → pay_rates s pid = some defaultPayRate) ∧
    (∀ q : ℚ, pay_rates s pid = some q → q ≠ 0) := by
  refine ⟨by norm_num [defaultPayRate], ?_, ?_⟩
  · rintro (h | h) <;> simp [pay_rates, hu, hprof, h, pyOrRat]
  · intro q hq
    simp only [pay_rates, hu, hprof, if_true, reduceIte, Option.some.injEq] at hq
    subst hq
    cases hr : u.pay_rate with
    | none => simp [pyOrRat]; norm_num [defaultPayRate]
    | some v =>
      by_cases hv : v = 0
      · simp [pyOrRat, hv]; norm_num [defaultPayRate]
      · simp [pyOrRat, hv]

/-- C10 witness: provider 2 of the sample database has no stored rate
and is priced at the default, which is nonzero. -/
theorem pay_rate_default_on_falsy_witness :
    pay_rates stateA 2 = some defaultPayRate ∧
    (∀ q : ℚ, pay_rates stateA 2 = some q → q ≠ 0) :=
  ⟨(pay_rate_default_on_falsy stateA 2 uPro rfl rfl).2.1 (Or.inl rfl),
   (pay_rate_default_on_falsy stateA 2 uPro rfl rfl).2.2⟩

/-- C4 counterexample: the claim says the validator rejects with
`InvalidSlotFormat` exactly when the slot is not of the form
`"<int>-<int+1>"`; but `"3-9"` and `"10"` are not of that form and the
validation nevertheless passes (only the text before the first `-` is
ever parsed). -/
theorem slot_format_counterexample :
    specSlotWellFormed "3-9" = false ∧ validate_schedule "3-9" 1 1 = none ∧
    specSlotWellFormed "10" = false ∧ validate_schedule "10" 1 1 = none := by
  decide

/-- C4 amended: the validation rejects with `InvalidSlotFormat` exactly
when `int(slot.split("-")[0])` fails (the text after the first `-` is
never examined); given the parsed start hour `h` it rejects with
`DurationOutOfRange` exactly when `duration ∉ [1, maxDuration h]` with
`maxDuration h = (if h < 12 then 12 else 22) - h`; and, the duration
being in range, it rejects with `ServiceCountExceedsDuration` exactly
when `nberServices > duration`. -/
theorem schedule_validation_amended (slot : String) (duration nber : Int) :
    (validate_schedule slot duration nber = some .invalidSlotFormat ↔
      pyInt (firstComponent slot) = none) ∧
    (∀ h0 : Int, pyInt (firstComponent slot) = some h0 →
      (validate_schedule slot duration nber = some .durationOutOfRange ↔
        ¬(1 ≤ duration ∧ duration ≤ maxDuration h0))) ∧
    (∀ h0 : Int, pyInt (firstComponent slot) = some h0 →
      1 ≤ duration → duration ≤ maxDuration h0 →
      (validate_schedule slot duration nber = some .serviceCountExceedsDuration ↔
        nber > duration)) := by
  unfold validate_schedule
  cases hp : pyInt (firstComponent slot) with
  | none => simp [hp]
  | some h1 =>
    refine ⟨?_, ?_, ?_⟩
    · by_cases hd : 1 ≤ duration ∧ duration ≤ maxDuration h1 <;>
        by_cases hn : nber > duration <;> simp [hd, hn]
    · intro h0 hh
      obtain rfl : h1 = h0 := by injection hh
      by_cases hd : 1 ≤ duration ∧ duration ≤ maxDuration h1 <;>
        by_cases hn : nber > duration <;> simp [hd, hn]
    · intro h0 hh hd1 hd2
      obtain rfl : h1 = h0 := by injection hh
      by_cases hn : nber > duration <;> simp [hd1, hd2, hn]

/-- C4 amended witness: the spec's own examples, checked through the
amended characterization: slot 10-11 with duration 3 is rejected as out
of range (max is 2), slot 1-2 with duration 2 and 5 services is
rejected for the service count. -/
theorem schedule_validation_amended_witness :
    validate_schedule "10-11" 3 1 = some .durationOutOfRange ∧
    validate_schedule "1-2" 2 5 = some .serviceCountExceedsDuration :=
  ⟨((schedule_validation_amended "10-11" 3 1).2.1 10 (by decide)).mpr (by decide),
   ((schedule_validation_amended "1-2" 2 5).2.2 1 (by decide) (by decide) (by decide)).mpr
     (by decide)⟩

/-- C1: the claim requires `accept` to fail on a non-`requested`
appointment, leaving the stored status unchanged; the route, however,
never inspects the status. Evaluated at the failing input — appointment
#1 is `cancelled` and its provider (actor 2) accepts it — the route
reports success and overwrites the stored status with `accepted`,
while a non-provider actor (4) is still rejected. -/
theorem accept_ignores_status_code_bug :
    appt1.status = .cancelled ∧
    (accept_appointment_route stateA [] 2 .professional 1).2.2 = .accepted ∧
    (appt_row (accept_appointment_route stateA [] 2 .professional 1).1 1).map
      Appointment.status = some .accepted ∧
    (accept_appointment_route stateA [] 4 .client 1).2.2 = .notAuthorized ∧
    (accept_appointment_route stateA [] 4 .client 1).1 = stateA := by
  refine ⟨rfl, by decide, by decide, by decide, rfl⟩

/-- C6: the claim requires report creation to fail unless the actor is
a consumer whose appointment date has passed and no report exists yet.
The in-code intent agrees (`can_write_report` in
`_get_my_appointments_cached` gates the UI button on exactly these
conditions), but the `create_reports` POST path enforces none of them:
at day 50 the sample appointment #1 is dated day 100 (not yet passed)
and already has report #7, `can_write_report` is false — yet the route
succeeds and stores a second report. -/
theorem report_creation_unguarded_code_bug :
    can_write_report stateB 50 .client
      { appt1 with status := .requested, date_appoint := 100 } = false ∧
    (create_reports_route stateB 3 1 "bad haircut").2 = true ∧
    (create_reports_route stateB 3 1 "bad haircut").1.reports.length =
      stateB.reports.length + 1 ∧
    has_report_for_appointment stateB 1 = true := by
  refine ⟨by decide, by decide, by decide, by decide⟩

/-- C5: the claim requires the modify operation's two UPDATEs to be one
all-or-nothing transaction. `Database.execute` commits after every
single statement, so when the second UPDATE (salon_service) fails, the
first (salon_appointment) is already durable: evaluated at the failing
input, the route ends in a store error with appointment #1's slot
already changed to 13-14 while the service row still carries the old
duration — a state the claim says cannot be observed — and, the spec's
rollback never having happened, nothing restores the old row. -/
theorem modify_partial_commit_code_bug :
    (modify_appointment_route stateA [] 9 .adminSuper 1 3 2 11 "13-14" "room1"
        "Cut" 1 2 true).2.2 = .storeError ∧
    (appt_row (modify_appointment_route stateA [] 9 .adminSuper 1 3 2 11 "13-14"
        "room1" "Cut" 1 2 true).1 1).map Appointment.slot = some "13-14" ∧
    service_row (modify_appointment_route stateA [] 9 .adminSuper 1 3 2 11 "13-14"
        "room1" "Cut" 1 2 true).1 1 = some svc1 ∧
    appt1.slot = "9-10" := by
  refine ⟨by decide, by decide, rfl, rfl⟩

/-- C7: when the inline scheduling validation of `modify_appointment`
fails — bad slot format, duration out of range, or more services than
hours — the route mutates nothing: the database state and the cache are
returned exactly as they were. -/
theorem modify_validation_failure_no_mutation
    (s : DBState) (c : Cache) (actorId : Nat) (actorType : UserType)
    (apptId consumerId providerId : Nat) (dateAppoint : Nat)
    (slot venue serviceName : String) (nberServices duration : Int)
    (failSecond : Bool)
    (hfail :
      (modify_appointment_route s c actorId actorType apptId consumerId providerId
        dateAppoint slot venue serviceName nberServices duration failSecond).2.2 =
          .invalidSlot ∨
      (modify_appointment_route s c actorId actorType apptId consumerId providerId
        dateAppoint slot venue serviceName nberServices duration failSecond).2.2 =
          .invalidDuration ∨
      (modify_appointment_route s c actorId actorType apptId consumerId providerId
        dateAppoint slot venue serviceName nberServices duration failSecond).2.2 =
          .invalidServices) :
    (modify_appointment_route s c actorId actorType apptId consumerId providerId
      dateAppoint slot venue serviceName nberServices duration failSecond).1 = s ∧
    (modify_appointment_route s c actorId actorType apptId consumerId providerId
      dateAppoint slot venue serviceName nberServices duration failSecond).2.1 = c := by
  unfold modify_appointment_route at hfail ⊢
  cases hd : get_appointment_by_id s apptId with
  | none => simp [hd]
  | some d =>
    simp only [hd] at hfail ⊢
    by_cases ha1 : actorType = .client ∧ actorId ≠ d.consumer_id
    · simp [ha1]
    · by_cases ha2 : actorType = .professional ∧ actorId ≠ d.provider_id
      · simp [ha1, ha2]
      · cases hp : pyInt (firstComponent slot) with
        | none => simp [ha1, ha2, hp]
        | some startHour =>
          simp only [ha1, ha2, hp, if_false, reduceIte] at hfail ⊢
          by_cases hdur : 1 ≤ duration ∧ duration ≤ maxDuration startHour
          · by_cases hn : nberServices > duration
            · simp [hdur, hn]
            · simp [hdur, hn] at hfail ⊢
              cases failSecond <;> simp_all
          · simp [hdur]

/-- C7 witness: modifying appointment #1 to a duration of 3 hours in
the 10-11 slot (max 2) is rejected and leaves the database and the
cache untouched. -/
theorem modify_validation_failure_no_mutation_witness :
    (modify_appointment_route stateA [.listAllAppointments] 9 .adminSuper 1 3 2 11
      "10-11" "room1" "Cut" 1 3 false).1 = stateA ∧
    (modify_appointment_route stateA [.listAllAppointments] 9 .adminSuper 1 3 2 11
      "10-11" "room1" "Cut" 1 3 false).2.1 = [.listAllAppointments] :=
  modify_validation_failure_no_mutation stateA [.listAllAppointments] 9 .adminSuper
    1 3 2 11 "10-11" "room1" "Cut" 1 3 false (by decide)

/-- C3 counterexample: the claim says every path stores
`price = duration × nber_services × provider_pay_rate`. Modifying
appointment #1 to `duration = 2` and `nber_services = 2` with provider
2 (default rate) succeeds and stores `2 × 15.75`, not the claimed
`2 × 2 × 15.75`. -/
theorem modify_price_drops_services_counterexample :
    (modify_appointment_route stateA [] 9 .adminSuper 1 3 2 11 "9-10" "room1"
        "Cut" 2 2 false).2.2 = .updated ∧
    (appt_row (modify_appointment_route stateA [] 9 .adminSuper 1 3 2 11 "9-10"
        "room1" "Cut" 2 2 false).1 1).map Appointment.nber_services = some 2 ∧
    (service_row (modify_appointment_route stateA [] 9 .adminSuper 1 3 2 11 "9-10"
        "room1" "Cut" 2 2 false).1 1).map Service.service_price =
      some (((2 : Int) : ℚ) * defaultPayRate) ∧
    ((2 : Int) : ℚ) * defaultPayRate ≠
      ((2 : Int) : ℚ) * ((2 : Int) : ℚ) * defaultPayRate := by
  refine ⟨by decide, by decide, rfl, by norm_num [defaultPayRate]⟩

/-- C3 amended: the price invariant
`price = duration × nber_services × provider_pay_rate` holds on the two
creation paths — the client path fixes `nber_services = 1` and stores
`duration × rate`, the admin path stores
`duration × (nb_services or 1) × rate` — but not on the edit paths: a
successful `modify_appointment` stores `duration × rate` regardless of
the new `nber_services`, and the admin `edit_appointment` leaves the
stored price unchanged altogether. -/
theorem price_formula_amended (s : DBState) (c : Cache) :
    (∀ (actorId : Nat) (actorType : UserType) (fa fl : String) (pid : Nat)
        (p : User) (dt : Nat) (slot venue sn : String) (dur : Int),
      get_user_by_id s pid = some p →
      appt_row s s.next_id = none →
      service_row s s.next_id = none →
      appt_row (create_appointment_route s c actorId actorType fa fl pid dt slot
          venue sn dur).1 s.next_id =
        some { appointment_id := s.next_id, consumer_id := actorId
               provider_id := p.user_id
               consumer_name := some (fa ++ " " ++ fl)
               provider_name := some (p.fname ++ " " ++ p.lname)
               status := .requested, date_appoint := dt, slot := slot
               venue := venue, nber_services := 1 } ∧
      service_row (create_appointment_route s c actorId actorType fa fl pid dt slot
          venue sn dur).1 s.next_id =
        some { appointment_id := s.next_id, service_name := sn
               service_duration := dur
               service_price := (dur : ℚ) * pay_rates_get s pid
               service_materials := none }) ∧
    (∀ (adminType : UserType) (cid pid : Nat) (venue : String) (dt : Nat)
        (slot : String) (sid : Nat) (dur nb h0 : Int),
      pyInt (firstComponent slot) = some h0 →
      1 ≤ dur → dur ≤ maxDuration h0 →
      pyOrInt nb 1 ≤ dur →
      appt_row s s.next_id = none →
      service_row s s.next_id = none →
      (appt_row (admin_create_appointment_route s c adminType cid pid venue dt slot
          sid dur nb).1 s.next_id).map Appointment.nber_services =
        some (pyOrInt nb 1) ∧
      (service_row (admin_create_appointment_route s c adminType cid pid venue dt
          slot sid dur nb).1 s.next_id).map Service.service_price =
        some ((dur : ℚ) * ((pyOrInt nb 1 : Int) : ℚ) * pay_rates_get s pid)) ∧
    (∀ (actorId : Nat) (actorType : UserType) (apptId cid pid : Nat) (dt : Nat)
        (slot venue sn : String) (nsv dur h0 : Int) (d : ApptDict) (sv : Service),
      get_appointment_by_id s apptId = some d →
      ¬(actorType = .client ∧ actorId ≠ d.consumer_id) →
      ¬(actorType = .professional ∧ actorId ≠ d.provider_id) →
      pyInt (firstComponent slot) = some h0 →
      1 ≤ dur → dur ≤ maxDuration h0 → nsv ≤ dur →
      service_row s apptId = some sv →
      service_row (modify_appointment_route s c actorId actorType apptId cid pid dt
          slot venue sn nsv dur false).1 apptId =
        some { sv with service_name := sn, service_duration := dur
                       service_price := (dur : ℚ) * pay_rates_get s pid }) ∧
    (∀ (adminType : UserType) (apptId cid pid : Nat) (dt : Nat)
        (slot venue sn : String) (nsv dur h0 : Int) (d : ApptDict) (sv : Service),
      get_appointment_by_id s apptId = some d →
      pyInt (firstComponent slot) = some h0 →
      1 ≤ dur → dur ≤ maxDuration h0 → nsv ≤ dur →
      service_row s apptId = some sv →
      service_row (admin_edit_appointment_route s c adminType apptId cid pid dt slot
          venue sn nsv dur false).1 apptId =
        some { sv with service_name := sn, service_duration := dur }) := by
  refine ⟨?_, ?_, ?_, ?_⟩
  · intro actorId actorType fa fl pid p dt slot venue sn dur hp ha hs
    unfold create_appointment_route
    simp only [hp]
    unfold add_appointment add_service appt_row service_row
    constructor
    · rw [List.find?_append]
      have ha' : s.appointments.find? (fun x => x.appointment_id = s.next_id) = none := ha
      simp [ha', List.find?]
    · rw [List.find?_append]
      have hs' : s.services.find? (fun x => x.appointment_id = s.next_id) = none := hs
      simp [hs', List.find?]
  · intro adminType cid pid venue dt slot sid dur nb h0 hp h1 h2 hnb ha hs
    unfold admin_create_appointment_route
    simp only [hp, h1, h2, and_self, not_true_eq_false, if_false, not_lt.mpr hnb,
      reduceIte, not_lt]
    unfold add_appointment add_service appt_row service_row
    constructor
    · rw [List.find?_append]
      have ha' : s.appointments.find? (fun x => x.appointment_id = s.next_id) = none := ha
      simp [ha', List.find?]
    · rw [List.find?_append]
      have hs' : s.services.find? (fun x => x.appointment_id = s.next_id) = none := hs
      simp [hs', List.find?]
  · intro actorId actorType apptId cid pid dt slot venue sn nsv dur h0 d sv hd hu1 hu2
      hp h1 h2 hnsv hsv
    unfold modify_appointment_route
    simp only [hd, hu1, hu2, hp, h1, h2, and_self, not_true_eq_false, if_false,
      not_lt.mpr hnsv, reduceIte, Bool.false_eq_true]
    rw [service_row_set, service_row_set_appt, hsv]
    · rfl
    · intro sv2; rfl
  · intro adminType apptId cid pid dt slot venue sn nsv dur h0 d sv hd hp h1 h2 hnsv hsv
    unfold admin_edit_appointment_route
    simp only [hd, hp, h1, h2, and_self, not_true_eq_false, if_false,
      not_lt.mpr hnsv, reduceIte, Bool.false_eq_true]
    rw [service_row_set, service_row_set_appt, hsv]
    · rfl
    · intro sv2; rfl

/-- C3 amended witness: concrete runs of all four paths on the sample
database: client create (duration 2, provider 2) stores price
`2 × 15.75 = 31.5` with one service; the admin create with
`nb_services = 3`, duration 4 stores `4 × 3 × 15.75`; a modify to
duration 2 stores `2 × 15.75`; the admin edit keeps the old price 20. -/
theorem price_formula_amended_witness :
    (service_row (create_appointment_route stateA [] 3 .client "Cara" "Cli" 2 11
        "9-10" "room1" "Cut" 2).1 stateA.next_id).map Service.service_price =
      some (((2 : Int) : ℚ) * pay_rates_get stateA 2) ∧
    (service_row (admin_create_appointment_route stateA [] .adminSuper 3 2 "room1"
        11 "13-14" 5 4 3).1 stateA.next_id).map Service.service_price =
      some (((4 : Int) : ℚ) * ((3 : Int) : ℚ) * pay_rates_get stateA 2) ∧
    (service_row (modify_appointment_route stateA [] 9 .adminSuper 1 3 2 11 "9-10"
        "room1" "Cut" 2 2 false).1 1).map Service.service_price =
      some (((2 : Int) : ℚ) * pay_rates_get stateA 2) ∧
    (service_row (admin_edit_appointment_route stateA [] .adminSuper 1 3 2 11
        "9-10" "room1" "Cut" 2 2 false).1 1).map Service.service_price =
      some (20 : ℚ) := by
  refine ⟨?_, ?_, ?_, ?_⟩
  · have h := ((price_formula_amended stateA []).1 3 .client "Cara" "Cli" 2 uPro 11
      "9-10" "room1" "Cut" 2 rfl rfl rfl).2
    rw [h]; rfl
  · have h := ((price_formula_amended stateA []).2.1 .adminSuper 3 2 "room1" 11
      "13-14" 5 4 3 13 (by decide) (by decide) (by decide) (by decide) rfl rfl).2
    rw [h]; rfl
  · have h := (price_formula_amended stateA []).2.2.1 9 .adminSuper 1 3 2 11 "9-10"
      "room1" "Cut" 2 2 9 dictA svc1 rfl (by decide) (by decide) (by decide)
      (by decide) (by decide) (by decide) rfl
    rw [h]; rfl
  · have h := (price_formula_amended stateA []).2.2.2 .adminSuper 1 3 2 11 "9-10"
      "room1" "Cut" 2 2 9 dictA svc1 rfl (by decide) (by decide) (by decide)
      (by decide) rfl
    rw [h]; rfl

/-- C8 counterexample: the claim says a successful delete removes
Service then Appointment "within one transaction". The connection is
opened with `autocommit=True`, so each DELETE of
`Database.delete_appointment` is durable on its own: when the second
DELETE fails, the route ends in an error with the service row already
durably gone while appointment #1 is still stored — a state one
transaction could never expose — and no cache purge is issued. -/
theorem delete_not_atomic_counterexample :
    (delete_appointment_route stateA [.listAllAppointments] 3 .client 1
        true).2.2 = .storeError ∧
    (delete_appointment_route stateA [.listAllAppointments] 3 .client 1
        true).1.services = [] ∧
    appt_row (delete_appointment_route stateA [.listAllAppointments] 3 .client 1
        true).1 1 = some appt1 ∧
    (delete_appointment_route stateA [.listAllAppointments] 3 .client 1
        true).2.1 = [.listAllAppointments] := by
  refine ⟨by decide, by decide, by decide, by decide⟩

/-- C8 amended: `delete(appointmentId, actorId)` fails `Unauthorized`
unless the actor is the appointment's consumer, its provider, or an
admin (`admin_user`/`admin_super`); it fails `ReportLinked` whenever a
report exists, leaving everything stored; otherwise it deletes the
Service row and then the Appointment row, in that order — but as two
autonomously committed statements, not one transaction: the connection
autocommits, so a failure between the two DELETEs durably leaves the
Service removed and the Appointment stored, with no cache purge. -/
theorem delete_route_amended (s : DBState) (c : Cache) (actorId : Nat)
    (actorType : UserType) (apptId : Nat) (failSecond : Bool) (d : ApptDict)
    (hd : get_appointment_by_id s apptId = some d) :
    (¬((actorId = d.consumer_id ∨ actorId = d.provider_id) ∨
        (actorType = .adminUser ∨ actorType = .adminSuper)) →
      delete_appointment_route s c actorId actorType apptId failSecond =
        (s, c, .unauthorized)) ∧
    (((actorId = d.consumer_id ∨ actorId = d.provider_id) ∨
        (actorType = .adminUser ∨ actorType = .adminSuper)) →
      (get_report_by_appointment_id s apptId).isSome →
      delete_appointment_route s c actorId actorType apptId failSecond =
        (s, c, .reportLinked)) ∧
    (((actorId = d.consumer_id ∨ actorId = d.provider_id) ∨
        (actorType = .adminUser ∨ actorType = .adminSuper)) →
      get_report_by_appointment_id s apptId = none →
      delete_appointment_route s c actorId actorType apptId false =
        ({ s with
            services := s.services.filter (fun sv => sv.appointment_id ≠ apptId)
            appointments :=
              s.appointments.filter (fun a => a.appointment_id ≠ apptId) },
         purgeKeys [.myAppointments actorId actorType 1, .listAllAppointments] c,
         .deleted)) ∧
    (((actorId = d.consumer_id ∨ actorId = d.provider_id) ∨
        (actorType = .adminUser ∨ actorType = .adminSuper)) →
      get_report_by_appointment_id s apptId = none →
      delete_appointment_route s c actorId actorType apptId true =
        ({ s with
            services := s.services.filter (fun sv => sv.appointment_id ≠ apptId) },
         c, .storeError)) := by
  refine ⟨?_, ?_, ?_, ?_⟩
  · intro hna
    unfold delete_appointment_route
    simp [hd, hna]
  · intro ha hr
    unfold delete_appointment_route
    simp only [hd]
    rw [if_neg (not_not_intro ha)]
    simp [hr]
  · intro ha hr
    unfold delete_appointment_route
    simp only [hd]
    rw [if_neg (not_not_intro ha)]
    simp only [hr, Option.isSome_none, Bool.false_eq_true, if_false,
      delete_appointment_db, reduceIte]
    rw [invalidate_my_appt_cache_eq]
  · intro ha hr
    unfold delete_appointment_route
    simp only [hd]
    rw [if_neg (not_not_intro ha)]
    simp [hr, delete_appointment_db]

/-- C8 amended witness: on the sample database: an unrelated client (8)
is rejected; with a report present (stateB) the consumer's delete fails
ReportLinked; without one (stateA) it succeeds, removing both rows and
purging the actor's two cache keys; with the second DELETE failing,
only the service row is removed. -/
theorem delete_route_amended_witness :
    delete_appointment_route stateB [] 8 .client 1 false =
      (stateB, [], .unauthorized) ∧
    delete_appointment_route stateB [] 3 .client 1 false =
      (stateB, [], .reportLinked) ∧
    delete_appointment_route stateA [] 3 .client 1 false =
      ({ stateA with
          services := stateA.services.filter (fun sv => sv.appointment_id ≠ 1)
          appointments := stateA.appointments.filter (fun a => a.appointment_id ≠ 1) },
       purgeKeys [.myAppointments 3 .client 1, .listAllAppointments] [],
       .deleted) ∧
    delete_appointment_route stateA [] 3 .client 1 true =
      ({ stateA with
          services := stateA.services.filter (fun sv => sv.appointment_id ≠ 1) },
       [], .storeError) :=
  ⟨(delete_route_amended stateB [] 8 .client 1 false
      { dictA with status := .requested, date_appoint := 100 } rfl).1 (by decide),
   (delete_route_amended stateB [] 3 .client 1 false
      { dictA with status := .requested, date_appoint := 100 } rfl).2.1
     (by decide) (by decide),
   (delete_route_amended stateA [] 3 .client 1 false dictA rfl).2.2.1
     (by decide) (by decide),
   (delete_route_amended stateA [] 3 .client 1 true dictA rfl).2.2.2
     (by decide) (by decide)⟩

/-- C2 counterexample: the claim says every appointment mutation purges,
among others, `singleAppointment(id)` and the consumer's and provider's
`myAppointments` entries before returning. Provider 2's successful
accept of appointment #1 (consumer 3) leaves both the
`_get_view_appointment_cached(1, "all")` entry and consumer 3's
`myAppointments` entry in the cache, and a successful
`modify_appointment` purges nothing at all. -/
theorem purge_set_incomplete_counterexample :
    (accept_appointment_route stateA
        [.viewAdminAppointment 1 "all", .myAppointments 3 .client 1] 2
        .professional 1).2.2 = .accepted ∧
    appt1.consumer_id = 3 ∧
    CacheKey.viewAdminAppointment 1 "all" ∈
      (accept_appointment_route stateA
        [.viewAdminAppointment 1 "all", .myAppointments 3 .client 1] 2
        .professional 1).2.1 ∧
    CacheKey.myAppointments 3 .client 1 ∈
      (accept_appointment_route stateA
        [.viewAdminAppointment 1 "all", .myAppointments 3 .client 1] 2
        .professional 1).2.1 ∧
    (modify_appointment_route stateA [.myAppointments 3 .client 1] 9 .adminSuper
        1 3 2 11 "9-10" "room1" "Cut" 1 1 false).2.2 = .updated ∧
    (modify_appointment_route stateA [.myAppointments 3 .client 1] 9 .adminSuper
        1 3 2 11 "9-10" "room1" "Cut" 1 1 false).2.1 =
      [.myAppointments 3 .client 1] := by
  refine ⟨by decide, rfl, by decide, by decide, by decide, by decide⟩

/-- C2 amended: each mutation site purges only its own fixed key list,
not the claim's full enumeration. A successful client-side create,
accept, cancel or delete purges exactly the acting user's
`myAppointments(actor, actorType, 1)` entry plus the global
`list_all_appointments` entry; the client-side modify purges nothing on
any path; a successful admin create purges exactly the four
`manageAppointments(adminType, status)` entries; a successful admin
edit or delete purges those four plus the `userAppointments` entries of
the two affected users. `singleAppointment(id)` is never purged. -/
theorem mutation_purge_sets_amended (s : DBState) (c : Cache) :
    (∀ (actorId : Nat) (actorType : UserType) (fa fl : String) (pid dt : Nat)
        (slot venue sn : String) (dur : Int),
      (create_appointment_route s c actorId actorType fa fl pid dt slot venue sn
          dur).2.2 = .created →
      (create_appointment_route s c actorId actorType fa fl pid dt slot venue sn
          dur).2.1 =
        purgeKeys [.myAppointments actorId actorType 1, .listAllAppointments] c) ∧
    (∀ (actorId : Nat) (actorType : UserType) (apptId : Nat),
      (accept_appointment_route s c actorId actorType apptId).2.2 = .accepted →
      (accept_appointment_route s c actorId actorType apptId).2.1 =
        purgeKeys [.myAppointments actorId actorType 1, .listAllAppointments] c) ∧
    (∀ (actorId : Nat) (actorType : UserType) (apptId : Nat),
      (cancel_appointment_route s c actorId actorType apptId).2.2 = .cancelled →
      (cancel_appointment_route s c actorId actorType apptId).2.1 =
        purgeKeys [.myAppointments actorId actorType 1, .listAllAppointments] c) ∧
    (∀ (actorId : Nat) (actorType : UserType) (apptId : Nat) (f2 : Bool),
      (delete_appointment_route s c actorId actorType apptId f2).2.2 = .deleted →
      (delete_appointment_route s c actorId actorType apptId f2).2.1 =
        purgeKeys [.myAppointments actorId actorType 1, .listAllAppointments] c) ∧
    (∀ (actorId : Nat) (actorType : UserType) (apptId cid pid dt : Nat)
        (slot venue sn : String) (nsv dur : Int) (f2 : Bool),
      (modify_appointment_route s c actorId actorType apptId cid pid dt slot venue
          sn nsv dur f2).2.1 = c) ∧
    (∀ (adminType : UserType) (cid pid : Nat) (venue : String) (dt : Nat)
        (slot : String) (sid : Nat) (dur nb : Int),
      (admin_create_appointment_route s c adminType cid pid venue dt slot sid dur
          nb).2.2 = .updated →
      (admin_create_appointment_route s c adminType cid pid venue dt slot sid dur
          nb).2.1 =
        purgeKeys [.manageAppointments adminType "all",
                   .manageAppointments adminType "requested",
                   .manageAppointments adminType "accepted",
                   .manageAppointments adminType "cancelled"] c) ∧
    (∀ (adminType : UserType) (apptId cid pid dt : Nat) (slot venue sn : String)
        (nsv dur : Int) (f2 : Bool),
      (admin_edit_appointment_route s c adminType apptId cid pid dt slot venue sn
          nsv dur f2).2.2 = .updated →
      (admin_edit_appointment_route s c adminType apptId cid pid dt slot venue sn
          nsv dur f2).2.1 =
        purgeKeys [.manageAppointments adminType "all",
                   .manageAppointments adminType "requested",
                   .manageAppointments adminType "accepted",
                   .manageAppointments adminType "cancelled",
                   .userAppointments cid, .userAppointments pid] c) ∧
    (∀ (adminType : UserType) (apptId : Nat) (f2 : Bool) (d : ApptDict),
      get_appointment_by_id s apptId = some d →
      (admin_delete_appointment_route s c adminType apptId f2).2.2 = .deleted →
      (admin_delete_appointment_route s c adminType apptId f2).2.1 =
        purgeKeys [.manageAppointments adminType "all",
                   .manageAppointments adminType "requested",
                   .manageAppointments adminType "accepted",
                   .manageAppointments adminType "cancelled",
                   .userAppointments d.consumer_id,
                   .userAppointments d.provider_id] c) := by
  refine ⟨?_, ?_, ?_, ?_, ?_, ?_, ?_, ?_⟩
  · intro actorId actorType fa fl pid dt slot venue sn dur hok
    unfold create_appointment_route at hok ⊢
    cases hp : get_user_by_id s pid with
    | none => simp [hp] at hok
    | some p => simp [hp, invalidate_my_appt_cache_eq, delete_memoized_eq_purgeKeys,
        purgeKeys_purgeKeys]
  · intro actorId actorType apptId hok
    unfold accept_appointment_route at hok ⊢
    cases hd : get_appointment_by_id s apptId with
    | none => simp [hd] at hok
    | some d =>
      by_cases hne : actorId ≠ d.provider_id
      · simp [hd, hne] at hok
      · simp [hd, hne, invalidate_my_appt_cache_eq]
  · intro actorId actorType apptId hok
    unfold cancel_appointment_route at hok ⊢
    cases hd : get_appointment_by_id s apptId with
    | none => simp [hd] at hok
    | some d =>
      by_cases hpart : actorId = d.provider_id ∨ actorId = d.consumer_id
      · by_cases hst : d.status ≠ .requested
        · simp [hd, hpart, hst] at hok
        · simp [hd, hpart, hst, invalidate_my_appt_cache_eq]
      · simp [hd, hpart] at hok
  · intro actorId actorType apptId f2 hok
    unfold delete_appointment_route at hok ⊢
    cases hd : get_appointment_by_id s apptId with
    | none => simp [hd] at hok
    | some d =>
      simp only [hd] at hok ⊢
      by_cases hA : (actorId = d.consumer_id ∨ actorId = d.provider_id) ∨
          (actorType = UserType.adminUser ∨ actorType = UserType.adminSuper)
      · rw [if_neg (not_not_intro hA)] at hok ⊢
        by_cases hr : (get_report_by_appointment_id s apptId).isSome
        · rw [if_pos hr] at hok; simp at hok
        · rw [if_neg hr] at hok ⊢
          cases f2 with
          | true => simp [delete_appointment_db] at hok
          | false => simp [delete_appointment_db, invalidate_my_appt_cache_eq]
      · rw [if_pos hA] at hok; simp at hok
  · intro actorId actorType apptId cid pid dt slot venue sn nsv dur f2
    unfold modify_appointment_route
    cases hd : get_appointment_by_id s apptId with
    | none => rfl
    | some d =>
      by_cases ha1 : actorType = .client ∧ actorId ≠ d.consumer_id
      · simp [ha1]
      · by_cases ha2 : actorType = .professional ∧ actorId ≠ d.provider_id
        · simp [ha1, ha2]
        · cases hp : pyInt (firstComponent slot) with
          | none => simp [ha1, ha2, hp]
          | some h0 =>
            by_cases hb : 1 ≤ dur ∧ dur ≤ maxDuration h0
            · by_cases hn : nsv > dur
              · simp [ha1, ha2, hp, hb, hn]
              · cases f2 <;> simp [ha1, ha2, hp, hb, hn]
            · simp [ha1, ha2, hp, hb]
  · intro adminType cid pid venue dt slot sid dur nb hok
    unfold admin_create_appointment_route at hok ⊢
    cases hp : pyInt (firstComponent slot) with
    | none => simp [hp] at hok
    | some h0 =>
      by_cases hb : 1 ≤ dur ∧ dur ≤ maxDuration h0
      · by_cases hn : pyOrInt nb 1 > dur
        · simp [hp, hb, hn] at hok
        · simp [hp, hb, hn, invalidate_appointment_cache_eq]
      · simp [hp, hb] at hok
  · intro adminType apptId cid pid dt slot venue sn nsv dur f2 hok
    unfold admin_edit_appointment_route at hok ⊢
    cases hd : get_appointment_by_id s apptId with
    | none => simp [hd] at hok
    | some d =>
      cases hp : pyInt (firstComponent slot) with
      | none => simp [hd, hp] at hok
      | some h0 =>
        by_cases hb : 1 ≤ dur ∧ dur ≤ maxDuration h0
        · by_cases hn : nsv > dur
          · simp [hd, hp, hb, hn] at hok
          · cases f2 with
            | true => simp [hd, hp, hb, hn] at hok
            | false =>
              simp [hd, hp, hb, hn, invalidate_appointment_cache_eq,
                delete_memoized_eq_purgeKeys, purgeKeys_purgeKeys]
        · simp [hd, hp, hb] at hok
  · intro adminType apptId f2 d hd hok
    unfold admin_delete_appointment_route at hok ⊢
    cases f2 with
    | true => simp [hd, delete_appointment_db] at hok
    | false =>
      simp [hd, delete_appointment_db, invalidate_appointment_cache_eq,
        delete_memoized_eq_purgeKeys, purgeKeys_purgeKeys]

/-- C2 amended witness: concrete successful mutations on the sample
database with an initially empty cache (every purge of an empty cache
is empty), plus a successful modify run on a one-key cache that is
returned untouched. -/
theorem mutation_purge_sets_amended_witness :
    (accept_appointment_route stateA [] 2 .professional 1).2.1 =
      purgeKeys [.myAppointments 2 .professional 1, .listAllAppointments] [] ∧
    (modify_appointment_route stateA [.myAppointments 3 .client 1] 9 .adminSuper
        1 3 2 11 "9-10" "room1" "Cut" 1 1 false).2.1 =
      [.myAppointments 3 .client 1] ∧
    (admin_edit_appointment_route stateA [] .adminSuper 1 3 2 11 "9-10" "room1"
        "Cut" 1 1 false).2.1 =
      purgeKeys [.manageAppointments .adminSuper "all",
                 .manageAppointments .adminSuper "requested",
                 .manageAppointments .adminSuper "accepted",
                 .manageAppointments .adminSuper "cancelled",
                 .userAppointments 3, .userAppointments 2] [] :=
  ⟨(mutation_purge_sets_amended stateA []).2.1 2 .professional 1 (by decide),
   (mutation_purge_sets_amended stateA
      [.myAppointments 3 .client 1]).2.2.2.2.1 9 .adminSuper 1 3 2 11 "9-10"
      "room1" "Cut" 1 1 false,
   (mutation_purge_sets_amended stateA []).2.2.2.2.2.2.1 .adminSuper 1 3 2 11
      "9-10" "room1" "Cut" 1 1 false (by decide)⟩

/-- Purging a key leaves no entry under it. -/
theorem dvLookup_purge (c : DVCache) (k : String) :
    dvLookup (dvPurge c k) k = none := by
  cases hf : List.find? (fun e => e.1 = k) (List.filter (fun e => e.1 ≠ k) c) with
  | none => simp [dvLookup, dvPurge, hf]
  | some e =>
    exfalso
    have h1 : e.1 = k := by simpa using List.find?_some hf
    have h2 := (List.mem_filter.mp (List.mem_of_find?_eq_some hf)).2
    simp [h1] at h2

/-- Cache miss: the producer runs and the result is stored. -/
theorem getOrCompute_miss (c : DVCache) (now : Nat) (k : String) (ttl : Nat)
    (p : Unit → Nat) (h : dvLookup c k = none) :
    getOrCompute c now k ttl p =
      (p (), (k, p (), now + ttl) :: List.filter (fun e => e.1 ≠ k) c, true) := by
  unfold getOrCompute
  rw [h]

/-- Cache hit: an unexpired entry is returned without running the
producer. -/
theorem getOrCompute_hit (c : DVCache) (now : Nat) (k : String) (ttl : Nat)
    (p : Unit → Nat) (v expiry : Nat) (h : dvLookup c k = some (v, expiry))
    (hlt : now < expiry) :
    getOrCompute c now k ttl p = (v, c, false) := by
  unfold getOrCompute
  rw [h]
  simp [hlt]

/-- The entry just stored under `k` is found. -/
theorem dvLookup_cons_self (k : String) (v e : Nat) (rest : DVCache) :
    dvLookup ((k, v, e) :: rest) k = some (v, e) := by
  simp [dvLookup, List.find?]

/-- C9: for the DerivedViewCache (spec §4.3): starting from a key with
no entry, two `getOrCompute` calls within the TTL invoke the producer
exactly once — the first invokes it, the second (before
`now1 + ttl`) returns the stored value without invoking — after
`purge(k)` the next `getOrCompute` invokes the producer again, and
purging a key with no entry leaves the cache unchanged. -/
theorem derived_view_cache_memoization (k : String) (ttl now1 now2 : Nat)
    (p1 p2 : Unit → Nat) (c : DVCache) :
    (dvLookup c k = none →
      (getOrCompute c now1 k ttl p1).2.2 = true ∧
      (now2 < now1 + ttl →
        (getOrCompute (getOrCompute c now1 k ttl p1).2.1 now2 k ttl p2).2.2 =
          false ∧
        (getOrCompute (getOrCompute c now1 k ttl p1).2.1 now2 k ttl p2).1 =
          (getOrCompute c now1 k ttl p1).1)) ∧
    (getOrCompute (dvPurge c k) now2 k ttl p2).2.2 = true ∧
    (dvLookup c k = none → dvPurge c k = c) := by
  refine ⟨?_, ?_, ?_⟩
  · intro h
    rw [getOrCompute_miss c now1 k ttl p1 h]
    refine ⟨rfl, ?_⟩
    intro hlt
    rw [getOrCompute_hit _ now2 k ttl p2 (p1 ()) (now1 + ttl)
      (dvLookup_cons_self k (p1 ()) (now1 + ttl) _) hlt]
    exact ⟨rfl, rfl⟩
  · rw [getOrCompute_miss _ now2 k ttl p2 (dvLookup_purge c k)]
  · intro h
    have h' : List.find? (fun e => e.1 = k) c = none := by
      cases hf : List.find? (fun e => e.1 = k) c with
      | none => rfl
      | some e => simp [dvLookup, hf] at h
    unfold dvPurge
    rw [List.filter_eq_self]
    intro a ha
    have := List.find?_eq_none.mp h' a ha
    simpa using this

/-- C9 witness: on an empty cache with TTL 60, the first call at time 0
invokes the producer, the second at time 30 does not; after a purge the
producer runs again; purging the (absent) key of the empty cache is a
no-op. -/
theorem derived_view_cache_memoization_witness :
    (getOrCompute [] 0 "myAppointments(3)" 60 (fun _ => 7)).2.2 = true ∧
    (getOrCompute (getOrCompute [] 0 "myAppointments(3)" 60 (fun _ => 7)).2.1 30
        "myAppointments(3)" 60 (fun _ => 8)).2.2 = false ∧
    (getOrCompute (dvPurge [] "myAppointments(3)") 30 "myAppointments(3)" 60
        (fun _ => 8)).2.2 = true ∧
    dvPurge ([] : DVCache) "myAppointments(3)" = [] :=
  ⟨((derived_view_cache_memoization "myAppointments(3)" 60 0 30 (fun _ => 7)
      (fun _ => 8) []).1 rfl).1,
   (((derived_view_cache_memoization "myAppointments(3)" 60 0 30 (fun _ => 7)
      (fun _ => 8) []).1 rfl).2 (by decide)).1,
   (derived_view_cache_memoization "myAppointments(3)" 60 0 30 (fun _ => 7)
      (fun _ => 8) []).2.1,
   (derived_view_cache_memoization "myAppointments(3)" 60 0 30 (fun _ => 7)
      (fun _ => 8) []).2.2 rfl⟩

end Saloon
